import Mathlib

/-!
Verification of the configuration loader of the news_detector service
(`src/app/core/config.py`), shallowly embedded in Lean 4.

The process environment is modelled as a partial map from variable names to
string values.  Python's `str.strip()` is modelled by `pyStrip` below over the
ASCII whitespace characters (CPython additionally strips some Unicode
whitespace, which no claim exercises), and Python's `int(...)` conversion of
an already-stripped string is modelled by `pyParseInt` below (optional sign,
decimal digits, single underscores allowed between digits).
-/

namespace NewsDetector

/-- A process environment: a partial map from variable names to values.
`none` means the variable is unset. -/
def Env : Type := String → Option String

/-- The single error type of the module (`class ConfigError(RuntimeError)`),
carrying a human-readable message. -/
structure ConfigError where
  msg : String
deriving DecidableEq, Repr

/-- ASCII whitespace, as stripped by Python `str.strip()`: space, tab,
newline, carriage return, vertical tab, form feed. -/
def isSpaceChar (c : Char) : Bool :=
  c = Char.ofNat 32 || c = Char.ofNat 9 || c = Char.ofNat 10 || c = Char.ofNat 13
    || c = Char.ofNat 11 || c = Char.ofNat 12

/-- Removal of leading and trailing whitespace from a character list. -/
def stripList (l : List Char) : List Char :=
  ((l.dropWhile isSpaceChar).reverse.dropWhile isSpaceChar).reverse

/-- Model of Python `str.strip()` (no argument): remove leading and trailing
whitespace. -/
def pyStrip (s : String) : String := ⟨stripList s.data⟩

/-- Decimal value of an ASCII digit character. -/
def digitVal (c : Char) : Nat := c.toNat - 48

/-- Continuation of Python decimal-literal parsing after at least one digit has
been read: further digits, with single underscores allowed only between two
digits (as accepted by CPython's `int`). -/
def pyDigitsAux (acc : Nat) : List Char → Option Nat
  | [] => some acc
  | [c] =>
      if c.isDigit then some (acc * 10 + digitVal c) else none
  | c :: c2 :: rest =>
      if c = Char.ofNat 95 then
        if c2.isDigit then pyDigitsAux (acc * 10 + digitVal c2) rest else none
      else if c.isDigit then
        pyDigitsAux (acc * 10 + digitVal c) (c2 :: rest)
      else none

/-- Python parsing of an unsigned decimal literal: a nonempty digit sequence,
with single underscores allowed between digits. -/
def pyParseNat : List Char → Option Nat
  | [] => none
  | c :: rest => if c.isDigit then pyDigitsAux (digitVal c) rest else none

/-- Model of Python `int(s)` for an already-stripped string `s`: an optional
sign followed by an unsigned decimal literal.  Returns `none` where CPython
raises `ValueError`. -/
def pyParseInt (s : String) : Option Int :=
  match s.data with
  | [] => none
  | c :: rest =>
      if c = Char.ofNat 43 then (pyParseNat rest).map Int.ofNat
      else if c = Char.ofNat 45 then (pyParseNat rest).map (fun n => -(n : Int))
      else (pyParseNat (c :: rest)).map Int.ofNat

/-- Lowercase hexadecimal digit for a value below 16, as CPython prints in
`\xNN` escapes. -/
def hexDigitChar (n : Nat) : Char :=
  if n < 10 then Char.ofNat (48 + n) else Char.ofNat (87 + n)

/-- How CPython `repr` renders one character of a string quoted with `q`: a
backslash and the quote character are backslash-escaped, tab, newline and
carriage return become `\t`, `\n`, `\r`, the remaining ASCII control
characters (below 32, and 127) become `\xNN`, and everything else is emitted
verbatim. -/
def pyCharEscape (q c : Char) : List Char :=
  if c = Char.ofNat 92 then [Char.ofNat 92, Char.ofNat 92]
  else if c = q then [Char.ofNat 92, q]
  else if c = Char.ofNat 9 then [Char.ofNat 92, Char.ofNat 116]
  else if c = Char.ofNat 10 then [Char.ofNat 92, Char.ofNat 110]
  else if c = Char.ofNat 13 then [Char.ofNat 92, Char.ofNat 114]
  else if c.toNat < 32 ∨ c.toNat = 127 then
    [Char.ofNat 92, Char.ofNat 120, hexDigitChar (c.toNat / 16), hexDigitChar (c.toNat % 16)]
  else [c]

/-- Model of CPython `repr` for strings: single quotes, switching to double
quotes when the string holds a single quote but no double quote, with the
escaping of `pyCharEscape` applied to every character.  (CPython additionally
escapes unprintable non-ASCII characters, which no claim exercises.) -/
def pyRepr (s : String) : String :=
  let q : Char :=
    if s.data.contains (Char.ofNat 39) && !s.data.contains (Char.ofNat 34)
    then Char.ofNat 34 else Char.ofNat 39
  ⟨q :: (s.data.map (pyCharEscape q)).flatten ++ [q]⟩

/-- The message of the error raised by `_get_int_env` on an unparseable
value: `f"Invalid integer for {name}: {raw!r}"`. -/
def invalidMsg (name raw : String) : String :=
  "Invalid integer for " ++ name ++ ": " ++ pyRepr raw

/-- Embedding of `_get_int_env(name, default)` from `config.py`:
`raw = os.getenv(name, str(default)).strip()`, then `int(raw)`, raising
`ConfigError(f"Invalid integer for {name}: {raw!r}")` on `ValueError`. -/
def getIntEnv (env : Env) (name : String) (default : Int) : Except ConfigError Int :=
  let raw := pyStrip ((env name).getD (toString default))
  match pyParseInt raw with
  | some n => Except.ok n
  | none => Except.error ⟨invalidMsg name raw⟩

/-- Embedding of the frozen dataclass `Config` from `config.py`. -/
structure Config where
  TELEGRAM_BOT_TOKEN : String
  DATABASE_URL : String
  CHECK_INTERVAL_MINUTES : Int
  SUMMARY_MIN_LEN : Int
  SUMMARY_MAX_LEN : Int
  LOG_LEVEL : String
deriving DecidableEq, Repr

/-- The message built by `Config.load` when required variables are missing. -/
def missingMsg (missing : List String) : String :=
  "Missing required environment variable(s): " ++ String.intercalate ", " missing
    ++ ". Create a .env file or set them in the environment."

/-- The value of a required string variable as read by `Config.load`:
`(os.getenv(name) or "").strip()`. -/
def reqVal (env : Env) (name : String) : String := pyStrip ((env name).getD "")

/-- The list of missing required variables collected by `Config.load`,
in the order the code appends them. -/
def missingOf (env : Env) : List String :=
  (if reqVal env "TELEGRAM_BOT_TOKEN" = "" then ["TELEGRAM_BOT_TOKEN"] else [])
    ++ (if reqVal env "DATABASE_URL" = "" then ["DATABASE_URL"] else [])

/-- The log level as computed by `Config.load`:
`os.getenv("LOG_LEVEL", "INFO").strip() or "INFO"`. -/
def logLevelOf (env : Env) : String :=
  let t := pyStrip ((env "LOG_LEVEL").getD "INFO")
  if t = "" then "INFO" else t

/-- Embedding of `Config.load` from `config.py`, applied to the process
environment as it stands after the `load_dotenv(override=False)` call. -/
def Config.load (env : Env) : Except ConfigError Config :=
  let telegram_bot_token := reqVal env "TELEGRAM_BOT_TOKEN"
  let database_url := reqVal env "DATABASE_URL"
  let missing : List String := missingOf env
  if missing.isEmpty then
    match getIntEnv env "CHECK_INTERVAL_MINUTES" 15 with
    | Except.error e => Except.error e
    | Except.ok check_interval_minutes =>
      match getIntEnv env "SUMMARY_MIN_LEN" 140 with
      | Except.error e => Except.error e
      | Except.ok summary_min_len =>
        match getIntEnv env "SUMMARY_MAX_LEN" 280 with
        | Except.error e => Except.error e
        | Except.ok summary_max_len =>
          let log_level := logLevelOf env
          if check_interval_minutes ≤ 0 then
            Except.error ⟨"CHECK_INTERVAL_MINUTES must be > 0"⟩
          else if summary_min_len ≤ 0 then
            Except.error ⟨"SUMMARY_MIN_LEN must be > 0"⟩
          else if summary_max_len ≤ 0 then
            Except.error ⟨"SUMMARY_MAX_LEN must be > 0"⟩
          else if summary_min_len > summary_max_len then
            Except.error ⟨"SUMMARY_MIN_LEN must be <= SUMMARY_MAX_LEN"⟩
          else
            Except.ok
              { TELEGRAM_BOT_TOKEN := telegram_bot_token
                DATABASE_URL := database_url
                CHECK_INTERVAL_MINUTES := check_interval_minutes
                SUMMARY_MIN_LEN := summary_min_len
                SUMMARY_MAX_LEN := summary_max_len
                LOG_LEVEL := log_level }
  else
    Except.error ⟨missingMsg missing⟩

/-- Modelled from the spec: `load_dotenv(override=False)` comes from the
external `python-dotenv` library, not from this repository's sources.  Per the
spec it "populates process environment from an optional external key/value
file, without overwriting variables already present in the environment": the
resulting environment takes the process value when the name is already set,
and the file value otherwise. -/
def load_dotenv (procEnv fileEnv : Env) : Env :=
  fun name =>
    match procEnv name with
    | some v => some v
    | none => fileEnv name

/-- Updating a single variable of an environment. -/
def setVar (env : Env) (n v : String) : Env :=
  fun m => if m = n then some v else env m

/-- Test `listPrefixOf sub l` is true when `sub` is a prefix of `l`. -/
def listPrefixOf : List Char → List Char → Bool
  | [], _ => true
  | _ :: _, [] => false
  | a :: as, b :: bs => a = b && listPrefixOf as bs

/-- Test `listInfixOf sub l` is true when `sub` occurs contiguously inside `l`. -/
def listInfixOf (sub : List Char) : List Char → Bool
  | [] => listPrefixOf sub []
  | c :: rest => listPrefixOf sub (c :: rest) || listInfixOf sub rest

/-- Test `strContains s sub` is true when `sub` occurs as a substring of `s`. -/
def strContains (s sub : String) : Bool := listInfixOf sub.data s.data

/-- Statement-level description of the integer `Config.load` uses for the
optional variable `name`: the default when the variable is unset, otherwise
the Python parse of the trimmed value. -/
def parsesTo (env : Env) (name : String) (default v : Int) : Prop :=
  match env name with
  | none => v = default
  | some s => pyParseInt (pyStrip s) = some v

/-- A fully populated test environment, with padded values. -/
def envAllSet : Env := fun n =>
  if n = "TELEGRAM_BOT_TOKEN" then some " token123 "
  else if n = "DATABASE_URL" then some "postgres://db"
  else if n = "CHECK_INTERVAL_MINUTES" then some " 20 "
  else if n = "SUMMARY_MIN_LEN" then some "100"
  else if n = "SUMMARY_MAX_LEN" then some "200"
  else if n = "LOG_LEVEL" then some "DEBUG"
  else none

/-- Required variables set, log level whitespace-only. -/
def envBlankLog : Env := fun n =>
  if n = "TELEGRAM_BOT_TOKEN" then some "t"
  else if n = "DATABASE_URL" then some "d"
  else if n = "LOG_LEVEL" then some " "
  else none

/-- The empty environment. -/
def envNone : Env := fun _ => none

/-- Required variables set, check interval unparseable. -/
def envBadInterval : Env := fun n =>
  if n = "TELEGRAM_BOT_TOKEN" then some "t"
  else if n = "DATABASE_URL" then some "d"
  else if n = "CHECK_INTERVAL_MINUTES" then some " abc "
  else none

/-- Required variables set, check interval a string with a backslash. -/
def envBackslash : Env := fun n =>
  if n = "TELEGRAM_BOT_TOKEN" then some "t"
  else if n = "DATABASE_URL" then some "d"
  else if n = "CHECK_INTERVAL_MINUTES" then some "a\\b"
  else none

/-- Required variables set, check interval whitespace-only. -/
def envBlankInterval : Env := fun n =>
  if n = "TELEGRAM_BOT_TOKEN" then some "t"
  else if n = "DATABASE_URL" then some "d"
  else if n = "CHECK_INTERVAL_MINUTES" then some "   "
  else none

/-- Required variables set, minimum summary length zero. -/
def envZeroMin : Env := fun n =>
  if n = "TELEGRAM_BOT_TOKEN" then some "t"
  else if n = "DATABASE_URL" then some "d"
  else if n = "SUMMARY_MIN_LEN" then some "0"
  else none

/-- Bot token set, database URL missing, check interval unparseable. -/
def envMissingDb : Env := fun n =>
  if n = "TELEGRAM_BOT_TOKEN" then some "t"
  else if n = "CHECK_INTERVAL_MINUTES" then some "abc"
  else none

/-- Process environment for the dotenv witness. -/
def procEnvW : Env := fun n =>
  if n = "TELEGRAM_BOT_TOKEN" then some "t"
  else if n = "DATABASE_URL" then some "d"
  else if n = "LOG_LEVEL" then some "DEBUG"
  else none

/-- Override-file contents for the dotenv witness. -/
def fileEnvW : Env := fun n =>
  if n = "LOG_LEVEL" then some "TRACE" else none

/-- A Config built by calling the constructor directly.  The source's frozen
dataclass constructor performs no validation, so this construction succeeds
in the code exactly as it does here. -/
def directConfig : Config :=
  { TELEGRAM_BOT_TOKEN := "t", DATABASE_URL := "d", CHECK_INTERVAL_MINUTES := 15
    SUMMARY_MIN_LEN := 300, SUMMARY_MAX_LEN := 280, LOG_LEVEL := "INFO" }

/-- When the environment value of `name` (or the default, when unset) parses,
`_get_int_env` returns that parse. -/
theorem getIntEnv_ok (env : Env) (name : String) (d v : Int)
    (hd : pyParseInt (pyStrip (toString d)) = some d)
    (h : parsesTo env name d v) : getIntEnv env name d = Except.ok v := by
  unfold parsesTo at h
  unfold getIntEnv
  cases henv : env name with
  | none =>
      rw [henv] at h
      subst h
      simp [henv, hd]
  | some s =>
      rw [henv] at h
      simp [henv, h]

/-- When the environment value of `name` does not parse, `_get_int_env`
raises the invalid-integer error carrying the trimmed raw value. -/
theorem getIntEnv_error (env : Env) (name : String) (d : Int) (s : String)
    (henv : env name = some s) (hp : pyParseInt (pyStrip s) = none) :
    getIntEnv env name d = Except.error ⟨invalidMsg name (pyStrip s)⟩ := by
  unfold getIntEnv
  simp [henv, hp]

/-- With both required variables non-empty after trimming, nothing is
missing. -/
theorem missingOf_empty (env : Env) (hbt : reqVal env "TELEGRAM_BOT_TOKEN" ≠ "")
    (hdb : reqVal env "DATABASE_URL" ≠ "") : missingOf env = [] := by
  unfold missingOf
  rw [if_neg hbt, if_neg hdb]
  rfl

/-- Whenever the collected missing list is non-empty, `Config.load` raises
the missing-variables error built from exactly that list, before any other
check runs. -/
theorem load_missing (env : Env) (h : missingOf env ≠ []) :
    Config.load env = Except.error ⟨missingMsg (missingOf env)⟩ := by
  simp only [Config.load]
  rw [if_neg]
  intro hemp
  exact h (List.isEmpty_iff.mp hemp)

/-- Success characterization of `Config.load`: with required variables
present and all three integers parsing (or defaulting) to positive values
with min ≤ max, it returns the record of read values. -/
theorem load_success (env : Env) (ci mn mx : Int)
    (hbt : reqVal env "TELEGRAM_BOT_TOKEN" ≠ "")
    (hdb : reqVal env "DATABASE_URL" ≠ "")
    (hci : parsesTo env "CHECK_INTERVAL_MINUTES" 15 ci)
    (hmn : parsesTo env "SUMMARY_MIN_LEN" 140 mn)
    (hmx : parsesTo env "SUMMARY_MAX_LEN" 280 mx)
    (hci0 : 0 < ci) (hmn0 : 0 < mn) (hmx0 : 0 < mx) (hle : mn ≤ mx) :
    Config.load env = Except.ok
      { TELEGRAM_BOT_TOKEN := reqVal env "TELEGRAM_BOT_TOKEN"
        DATABASE_URL := reqVal env "DATABASE_URL"
        CHECK_INTERVAL_MINUTES := ci
        SUMMARY_MIN_LEN := mn
        SUMMARY_MAX_LEN := mx
        LOG_LEVEL := logLevelOf env } := by
  have h1 := getIntEnv_ok env "CHECK_INTERVAL_MINUTES" 15 ci (by decide) hci
  have h2 := getIntEnv_ok env "SUMMARY_MIN_LEN" 140 mn (by decide) hmn
  have h3 := getIntEnv_ok env "SUMMARY_MAX_LEN" 280 mx (by decide) hmx
  simp only [Config.load, missingOf_empty env hbt hdb, h1, h2, h3,
    List.isEmpty_nil, if_true]
  rw [if_neg (by omega : ¬ ci ≤ 0), if_neg (by omega : ¬ mn ≤ 0),
    if_neg (by omega : ¬ mx ≤ 0), if_neg (by omega : ¬ mn > mx)]

/-- With required variables present, a parse failure of
`CHECK_INTERVAL_MINUTES` is what `Config.load` reports, regardless of the
remaining variables. -/
theorem load_int_error1 (env : Env) (e : ConfigError)
    (hbt : reqVal env "TELEGRAM_BOT_TOKEN" ≠ "")
    (hdb : reqVal env "DATABASE_URL" ≠ "")
    (h : getIntEnv env "CHECK_INTERVAL_MINUTES" 15 = Except.error e) :
    Config.load env = Except.error e := by
  simp only [Config.load, missingOf_empty env hbt hdb, List.isEmpty_nil, if_true, h]

/-- With required variables present and `CHECK_INTERVAL_MINUTES` parsing, a
parse failure of `SUMMARY_MIN_LEN` is what `Config.load` reports. -/
theorem load_int_error2 (env : Env) (e : ConfigError) (ci : Int)
    (hbt : reqVal env "TELEGRAM_BOT_TOKEN" ≠ "")
    (hdb : reqVal env "DATABASE_URL" ≠ "")
    (h1 : getIntEnv env "CHECK_INTERVAL_MINUTES" 15 = Except.ok ci)
    (h : getIntEnv env "SUMMARY_MIN_LEN" 140 = Except.error e) :
    Config.load env = Except.error e := by
  simp only [Config.load, missingOf_empty env hbt hdb, List.isEmpty_nil, if_true, h1, h]

/-- With required variables present and the first two integers parsing, a
parse failure of `SUMMARY_MAX_LEN` is what `Config.load` reports. -/
theorem load_int_error3 (env : Env) (e : ConfigError) (ci mn : Int)
    (hbt : reqVal env "TELEGRAM_BOT_TOKEN" ≠ "")
    (hdb : reqVal env "DATABASE_URL" ≠ "")
    (h1 : getIntEnv env "CHECK_INTERVAL_MINUTES" 15 = Except.ok ci)
    (h2 : getIntEnv env "SUMMARY_MIN_LEN" 140 = Except.ok mn)
    (h : getIntEnv env "SUMMARY_MAX_LEN" 280 = Except.error e) :
    Config.load env = Except.error e := by
  simp only [Config.load, missingOf_empty env hbt hdb, List.isEmpty_nil, if_true, h1, h2, h]

/-- Range and cross-field failures of `Config.load`, in the order the code
checks them. -/
theorem load_range_errors (env : Env) (ci mn mx : Int)
    (hbt : reqVal env "TELEGRAM_BOT_TOKEN" ≠ "")
    (hdb : reqVal env "DATABASE_URL" ≠ "")
    (h1 : getIntEnv env "CHECK_INTERVAL_MINUTES" 15 = Except.ok ci)
    (h2 : getIntEnv env "SUMMARY_MIN_LEN" 140 = Except.ok mn)
    (h3 : getIntEnv env "SUMMARY_MAX_LEN" 280 = Except.ok mx) :
    (ci ≤ 0 → Config.load env = Except.error ⟨"CHECK_INTERVAL_MINUTES must be > 0"⟩) ∧
    (0 < ci → mn ≤ 0 → Config.load env = Except.error ⟨"SUMMARY_MIN_LEN must be > 0"⟩) ∧
    (0 < ci → 0 < mn → mx ≤ 0 →
      Config.load env = Except.error ⟨"SUMMARY_MAX_LEN must be > 0"⟩) ∧
    (0 < ci → 0 < mn → 0 < mx → mn > mx →
      Config.load env = Except.error ⟨"SUMMARY_MIN_LEN must be <= SUMMARY_MAX_LEN"⟩) := by
  simp only [Config.load, missingOf_empty env hbt hdb, List.isEmpty_nil, if_true, h1, h2, h3]
  refine ⟨fun ha => ?_, fun ha hb => ?_, fun ha hb hc => ?_, fun ha hb hc hd => ?_⟩
  · rw [if_pos ha]
  · rw [if_neg (by omega : ¬ ci ≤ 0), if_pos hb]
  · rw [if_neg (by omega : ¬ ci ≤ 0), if_neg (by omega : ¬ mn ≤ 0), if_pos hc]
  · rw [if_neg (by omega : ¬ ci ≤ 0), if_neg (by omega : ¬ mn ≤ 0),
      if_neg (by omega : ¬ mx ≤ 0), if_pos hd]

/-- Inversion of a successful `Config.load`: the returned record's fields are
the read values and satisfy all the validated bounds. -/
theorem load_ok_inv (env : Env) (c : Config) (h : Config.load env = Except.ok c) :
    0 < c.CHECK_INTERVAL_MINUTES ∧ 0 < c.SUMMARY_MIN_LEN ∧ 0 < c.SUMMARY_MAX_LEN ∧
    c.SUMMARY_MIN_LEN ≤ c.SUMMARY_MAX_LEN ∧
    c.TELEGRAM_BOT_TOKEN = reqVal env "TELEGRAM_BOT_TOKEN" ∧
    c.DATABASE_URL = reqVal env "DATABASE_URL" ∧
    c.LOG_LEVEL = logLevelOf env := by
  simp only [Config.load] at h
  split at h
  · split at h
    · exact Except.noConfusion h
    · split at h
      · exact Except.noConfusion h
      · split at h
        · exact Except.noConfusion h
        · split at h
          · exact Except.noConfusion h
          · split at h
            · exact Except.noConfusion h
            · split at h
              · exact Except.noConfusion h
              · split at h
                · exact Except.noConfusion h
                · injection h with h
                  subst h
                  refine ⟨?_, ?_, ?_, ?_, rfl, rfl, rfl⟩ <;> simp <;> omega
  · exact Except.noConfusion h

/-- A list is a prefix of itself followed by anything. -/
theorem listPrefixOf_self_append (sub l : List Char) :
    listPrefixOf sub (sub ++ l) = true := by
  induction sub with
  | nil => rfl
  | cons a as ih => simp [listPrefixOf, ih]

/-- A list occurs at the front of itself followed by anything. -/
theorem listInfixOf_self_append (sub l : List Char) :
    listInfixOf sub (sub ++ l) = true := by
  cases sub with
  | nil =>
      cases l with
      | nil => rfl
      | cons c cs => simp [listInfixOf, listPrefixOf]
  | cons a as =>
      simp [listInfixOf, listPrefixOf, listPrefixOf_self_append]

/-- Occurrence inside a list is preserved by prepending. -/
theorem listInfixOf_append_left (sub x l : List Char) (h : listInfixOf sub l = true) :
    listInfixOf sub (x ++ l) = true := by
  induction x with
  | nil => simpa using h
  | cons c cs ih => simp [listInfixOf, ih]

/-- A string whose character data decomposes around `sub` contains `sub`. -/
theorem strContains_of_data (s sub : String) (x y : List Char)
    (h : s.data = x ++ (sub.data ++ y)) : strContains s sub = true := by
  unfold strContains
  rw [h]
  exact listInfixOf_append_left _ _ _ (listInfixOf_self_append _ _)

/-- The invalid-integer message contains the variable name. -/
theorem invalidMsg_contains_name (name raw : String) :
    strContains (invalidMsg name raw) name = true :=
  strContains_of_data _ _ ("Invalid integer for ").data ((": " ++ pyRepr raw)).data
    (by simp [invalidMsg, String.data_append, List.append_assoc])

/-- The invalid-integer message contains the repr of the raw value. -/
theorem invalidMsg_contains_repr (name raw : String) :
    strContains (invalidMsg name raw) (pyRepr raw) = true :=
  strContains_of_data _ _ ("Invalid integer for " ++ name ++ ": ").data []
    (by simp [invalidMsg, String.data_append, List.append_assoc])

/-- When the repr of the raw value is just the raw value between single
quotes (no character needed escaping and no quote switch), the
invalid-integer message contains the raw value itself. -/
theorem invalidMsg_contains_plain_raw (name raw : String)
    (hrepr : pyRepr raw = "\x27" ++ raw ++ "\x27") :
    strContains (invalidMsg name raw) raw = true :=
  strContains_of_data _ _ ("Invalid integer for " ++ name ++ ": " ++ "\x27").data
    ("\x27" : String).data
    (by simp [invalidMsg, hrepr, String.data_append, List.append_assoc])

/-- Loading reads the environment only through the two required
variables, the three integer variables and the log level: environments that
agree on those six reads load identically. -/
theorem load_congr (enva envb : Env)
    (hbt : reqVal enva "TELEGRAM_BOT_TOKEN" = reqVal envb "TELEGRAM_BOT_TOKEN")
    (hdb : reqVal enva "DATABASE_URL" = reqVal envb "DATABASE_URL")
    (h1 : getIntEnv enva "CHECK_INTERVAL_MINUTES" 15
        = getIntEnv envb "CHECK_INTERVAL_MINUTES" 15)
    (h2 : getIntEnv enva "SUMMARY_MIN_LEN" 140 = getIntEnv envb "SUMMARY_MIN_LEN" 140)
    (h3 : getIntEnv enva "SUMMARY_MAX_LEN" 280 = getIntEnv envb "SUMMARY_MAX_LEN" 280)
    (hlog : logLevelOf enva = logLevelOf envb) :
    Config.load enva = Config.load envb := by
  have hm : missingOf enva = missingOf envb := by
    unfold missingOf
    rw [hbt, hdb]
  simp only [Config.load, hbt, hdb, hm, h1, h2, h3, hlog]

/-- Reading the updated variable. -/
theorem setVar_same (env : Env) (n v : String) : setVar env n v n = some v := by
  simp [setVar]

/-- Reading any other variable. -/
theorem setVar_other (env : Env) (n v m : String) (h : m ≠ n) :
    setVar env n v m = env m := by
  simp [setVar, h]

/-- Updating a different variable leaves a required read unchanged. -/
theorem reqVal_setVar_ne (env : Env) (n v name : String) (h : name ≠ n) :
    reqVal (setVar env n v) name = reqVal env name := by
  unfold reqVal
  rw [setVar_other env n v name h]

/-- Updating a different variable leaves an integer read unchanged. -/
theorem getIntEnv_setVar_ne (env : Env) (n v name : String) (d : Int) (h : name ≠ n) :
    getIntEnv (setVar env n v) name d = getIntEnv env name d := by
  unfold getIntEnv
  rw [setVar_other env n v name h]

/-- Updating a variable other than `LOG_LEVEL` leaves the log level
unchanged. -/
theorem logLevelOf_setVar_ne (env : Env) (n v : String) (h : ("LOG_LEVEL" : String) ≠ n) :
    logLevelOf (setVar env n v) = logLevelOf env := by
  unfold logLevelOf
  rw [setVar_other env n v _ h]

/-- An integer read only depends on the stripped value of the variable. -/
theorem getIntEnv_setVar_strip (env : Env) (n t s : String) (d : Int)
    (h : pyStrip t = pyStrip s) :
    getIntEnv (setVar env n t) n d = getIntEnv (setVar env n s) n d := by
  unfold getIntEnv
  rw [setVar_same, setVar_same]
  simp [Option.getD, h]

/-- With both required variables blank, both names are collected, in the
order the code appends them. -/
theorem missingOf_both (env : Env) (hbt : reqVal env "TELEGRAM_BOT_TOKEN" = "")
    (hdb : reqVal env "DATABASE_URL" = "") :
    missingOf env = ["TELEGRAM_BOT_TOKEN", "DATABASE_URL"] := by
  unfold missingOf
  rw [if_pos hbt, if_pos hdb]
  rfl

/-- With only the bot token blank, only its name is collected. -/
theorem missingOf_left (env : Env) (hbt : reqVal env "TELEGRAM_BOT_TOKEN" = "")
    (hdb : reqVal env "DATABASE_URL" ≠ "") :
    missingOf env = ["TELEGRAM_BOT_TOKEN"] := by
  unfold missingOf
  rw [if_pos hbt, if_neg hdb]
  rfl

/-- With only the database URL blank, only its name is collected. -/
theorem missingOf_right (env : Env) (hbt : reqVal env "TELEGRAM_BOT_TOKEN" ≠ "")
    (hdb : reqVal env "DATABASE_URL" = "") :
    missingOf env = ["DATABASE_URL"] := by
  unfold missingOf
  rw [if_neg hbt, if_pos hdb]
  rfl

/-- A blank required variable makes the collected list non-empty. -/
theorem missingOf_ne_nil (env : Env)
    (h : reqVal env "TELEGRAM_BOT_TOKEN" = "" ∨ reqVal env "DATABASE_URL" = "") :
    missingOf env ≠ [] := by
  unfold missingOf
  rcases h with h | h
  · rw [if_pos h]
    simp
  · rw [if_pos h]
    simp

/-- Dropping whitespace skips over an all-whitespace prefix. -/
theorem dropWhile_ws_append (u l : List Char)
    (hu : ∀ c ∈ u, isSpaceChar c = true) :
    List.dropWhile isSpaceChar (u ++ l) = List.dropWhile isSpaceChar l := by
  induction u with
  | nil => rfl
  | cons c cs ih =>
      have hc := hu c (List.mem_cons_self c cs)
      simp only [List.cons_append, List.dropWhile_cons, hc, if_true]
      exact ih fun d hd => hu d (List.mem_cons_of_mem c hd)

/-- Dropping whitespace past a suffix starts in the prefix when the prefix
does not vanish. -/
theorem dropWhile_append_ne (l w : List Char)
    (h : List.dropWhile isSpaceChar l ≠ []) :
    List.dropWhile isSpaceChar (l ++ w) = List.dropWhile isSpaceChar l ++ w := by
  induction l with
  | nil => exact absurd rfl h
  | cons c cs ih =>
      by_cases hc : isSpaceChar c = true
      · simp only [List.dropWhile_cons, hc, if_true] at h
        simp only [List.cons_append, List.dropWhile_cons, hc, if_true]
        exact ih h
      · simp [List.dropWhile_cons, hc]

/-- Stripping ignores whitespace padding on either side. -/
theorem stripList_pad (u w l : List Char)
    (hu : ∀ c ∈ u, isSpaceChar c = true) (hw : ∀ c ∈ w, isSpaceChar c = true) :
    stripList (u ++ (l ++ w)) = stripList l := by
  unfold stripList
  rw [dropWhile_ws_append u (l ++ w) hu]
  by_cases hl : List.dropWhile isSpaceChar l = []
  · have hall : ∀ c ∈ l, isSpaceChar c = true := List.dropWhile_eq_nil_iff.mp hl
    have hlw : List.dropWhile isSpaceChar (l ++ w) = [] := by
      apply List.dropWhile_eq_nil_iff.mpr
      intro c hc
      rcases List.mem_append.mp hc with hcl | hcw
      · exact hall c hcl
      · exact hw c hcw
    rw [hlw, hl]
  · rw [dropWhile_append_ne l w hl, List.reverse_append,
      dropWhile_ws_append w.reverse _ fun c hc => hw c (List.mem_reverse.mp hc)]

/-- Stripping a string padded with whitespace equals stripping the unpadded
string. -/
theorem pyStrip_pad (t s : String) (u w : List Char)
    (hu : ∀ c ∈ u, isSpaceChar c = true) (hw : ∀ c ∈ w, isSpaceChar c = true)
    (ht : t.data = u ++ (s.data ++ w)) : pyStrip t = pyStrip s := by
  unfold pyStrip
  rw [ht, stripList_pad u w s.data hu hw]

/-- C1, counterexample to the claim as stated: in an environment meeting all
of the claim's hypotheses (required variables non-empty after trimming, the
integer variables absent) but with `LOG_LEVEL` set to the whitespace-only
string " ", `Config.load` succeeds with `LOG_LEVEL = "INFO"` rather than the
trimmed input value `""`. -/
theorem C1_log_level_counterexample :
    envBlankLog "LOG_LEVEL" = some " " ∧ pyStrip " " = "" ∧
    Config.load envBlankLog = Except.ok ⟨"t", "d", 15, 140, 280, "INFO"⟩ ∧
    ("INFO" : String) ≠ "" :=
  ⟨rfl, rfl, rfl, by decide⟩

/-- C1 (amended): for every environment in which the two required variables
are non-empty after trimming and each optional integer variable is absent or
parses (after trimming) to a strictly positive integer with min ≤ max,
`Config.load` succeeds and returns the trimmed required values, the
parsed/defaulted integers, and as `LOG_LEVEL` the trimmed value when that is
non-empty and `"INFO"` otherwise (in particular when absent). -/
theorem C1_load_success (env : Env) (ci mn mx : Int)
    (hbt : reqVal env "TELEGRAM_BOT_TOKEN" ≠ "")
    (hdb : reqVal env "DATABASE_URL" ≠ "")
    (hci : parsesTo env "CHECK_INTERVAL_MINUTES" 15 ci) (hci0 : 0 < ci)
    (hmn : parsesTo env "SUMMARY_MIN_LEN" 140 mn) (hmn0 : 0 < mn)
    (hmx : parsesTo env "SUMMARY_MAX_LEN" 280 mx) (hmx0 : 0 < mx)
    (hle : mn ≤ mx) :
    Config.load env = Except.ok
      { TELEGRAM_BOT_TOKEN := reqVal env "TELEGRAM_BOT_TOKEN"
        DATABASE_URL := reqVal env "DATABASE_URL"
        CHECK_INTERVAL_MINUTES := ci
        SUMMARY_MIN_LEN := mn
        SUMMARY_MAX_LEN := mx
        LOG_LEVEL := logLevelOf env } :=
  load_success env ci mn mx hbt hdb hci hmn hmx hci0 hmn0 hmx0 hle

/-- C1, witness: the hypotheses of `C1_load_success` hold of a concrete
environment, and the theorem computes its loaded configuration. -/
theorem C1_load_success_witness :
    reqVal envAllSet "TELEGRAM_BOT_TOKEN" ≠ "" ∧
    reqVal envAllSet "DATABASE_URL" ≠ "" ∧
    parsesTo envAllSet "CHECK_INTERVAL_MINUTES" 15 20 ∧ (0 : Int) < 20 ∧
    parsesTo envAllSet "SUMMARY_MIN_LEN" 140 100 ∧ (0 : Int) < 100 ∧
    parsesTo envAllSet "SUMMARY_MAX_LEN" 280 200 ∧ (0 : Int) < 200 ∧
    (100 : Int) ≤ 200 ∧
    Config.load envAllSet
      = Except.ok ⟨"token123", "postgres://db", 20, 100, 200, "DEBUG"⟩ :=
  ⟨by decide, by decide, rfl, by decide, rfl, by decide, rfl, by decide, by decide,
    C1_load_success envAllSet 20 100 200 (by decide) (by decide) rfl (by decide)
      rfl (by decide) rfl (by decide) (by decide)⟩

/-- C2, counterexample to the claim as stated ("however constructed"): the
frozen dataclass constructor validates nothing, so a `Config` violating
`SUMMARY_MIN_LEN ≤ SUMMARY_MAX_LEN` is directly constructible, in the code as
here. -/
theorem C2_construction_counterexample :
    ¬ directConfig.SUMMARY_MIN_LEN ≤ directConfig.SUMMARY_MAX_LEN := by
  decide

/-- C2 (amended): every `Config` returned by a successful `Config.load`
satisfies `SUMMARY_MIN_LEN ≤ SUMMARY_MAX_LEN`. -/
theorem C2_load_min_le_max (env : Env) (c : Config)
    (h : Config.load env = Except.ok c) :
    c.SUMMARY_MIN_LEN ≤ c.SUMMARY_MAX_LEN :=
  (load_ok_inv env c h).2.2.2.1

/-- C2, witness: `C2_load_min_le_max` applied to a concrete successful
load. -/
theorem C2_load_min_le_max_witness :
    Config.load envAllSet
      = Except.ok (⟨"token123", "postgres://db", 20, 100, 200, "DEBUG"⟩ : Config) ∧
    (⟨"token123", "postgres://db", 20, 100, 200, "DEBUG"⟩ : Config).SUMMARY_MIN_LEN
      ≤ (⟨"token123", "postgres://db", 20, 100, 200, "DEBUG"⟩ : Config).SUMMARY_MAX_LEN :=
  ⟨rfl, C2_load_min_le_max envAllSet _ rfl⟩

/-- C3: whenever required variables are missing (absent or blank after
trimming), `Config.load` raises a single `ConfigError` whose message names
exactly the missing ones — both names when both are missing, only the missing
one otherwise — collected before reporting. -/
theorem C3_missing_required_report (env : Env) :
    (reqVal env "TELEGRAM_BOT_TOKEN" = "" → reqVal env "DATABASE_URL" = "" →
        Config.load env
          = Except.error ⟨missingMsg ["TELEGRAM_BOT_TOKEN", "DATABASE_URL"]⟩) ∧
    (reqVal env "TELEGRAM_BOT_TOKEN" = "" → reqVal env "DATABASE_URL" ≠ "" →
        Config.load env = Except.error ⟨missingMsg ["TELEGRAM_BOT_TOKEN"]⟩) ∧
    (reqVal env "TELEGRAM_BOT_TOKEN" ≠ "" → reqVal env "DATABASE_URL" = "" →
        Config.load env = Except.error ⟨missingMsg ["DATABASE_URL"]⟩) ∧
    strContains (missingMsg ["TELEGRAM_BOT_TOKEN", "DATABASE_URL"])
      "TELEGRAM_BOT_TOKEN" = true ∧
    strContains (missingMsg ["TELEGRAM_BOT_TOKEN", "DATABASE_URL"])
      "DATABASE_URL" = true ∧
    strContains (missingMsg ["TELEGRAM_BOT_TOKEN"]) "TELEGRAM_BOT_TOKEN" = true ∧
    strContains (missingMsg ["TELEGRAM_BOT_TOKEN"]) "DATABASE_URL" = false ∧
    strContains (missingMsg ["DATABASE_URL"]) "DATABASE_URL" = true ∧
    strContains (missingMsg ["DATABASE_URL"]) "TELEGRAM_BOT_TOKEN" = false := by
  refine ⟨fun hbt hdb => ?_, fun hbt hdb => ?_, fun hbt hdb => ?_,
    by decide, by decide, by decide, by decide, by decide, by decide⟩
  · have hm := missingOf_both env hbt hdb
    rw [load_missing env (by rw [hm]; decide), hm]
  · have hm := missingOf_left env hbt hdb
    rw [load_missing env (by rw [hm]; decide), hm]
  · have hm := missingOf_right env hbt hdb
    rw [load_missing env (by rw [hm]; decide), hm]

/-- C3, witness: both required variables absent in the empty environment, and
the reported message lists both. -/
theorem C3_missing_required_report_witness :
    reqVal envNone "TELEGRAM_BOT_TOKEN" = "" ∧ reqVal envNone "DATABASE_URL" = "" ∧
    Config.load envNone
      = Except.error ⟨missingMsg ["TELEGRAM_BOT_TOKEN", "DATABASE_URL"]⟩ :=
  ⟨by decide, by decide, (C3_missing_required_report envNone).1 (by decide) (by decide)⟩

/-- C4: the fixed failure precedence of `Config.load` — a missing required
variable is reported whatever else is wrong; then integer-parse failures, in
the order CHECK_INTERVAL_MINUTES, SUMMARY_MIN_LEN, SUMMARY_MAX_LEN; then the
non-positivity checks in that same order; the min>max cross-field error comes
last. -/
theorem C4_error_precedence (env : Env) :
    ((reqVal env "TELEGRAM_BOT_TOKEN" = "" ∨ reqVal env "DATABASE_URL" = "") →
        missingOf env ≠ [] ∧
        Config.load env = Except.error ⟨missingMsg (missingOf env)⟩) ∧
    (∀ e : ConfigError, reqVal env "TELEGRAM_BOT_TOKEN" ≠ "" →
        reqVal env "DATABASE_URL" ≠ "" →
        getIntEnv env "CHECK_INTERVAL_MINUTES" 15 = Except.error e →
        Config.load env = Except.error e) ∧
    (∀ (e : ConfigError) (ci : Int), reqVal env "TELEGRAM_BOT_TOKEN" ≠ "" →
        reqVal env "DATABASE_URL" ≠ "" →
        getIntEnv env "CHECK_INTERVAL_MINUTES" 15 = Except.ok ci →
        getIntEnv env "SUMMARY_MIN_LEN" 140 = Except.error e →
        Config.load env = Except.error e) ∧
    (∀ (e : ConfigError) (ci mn : Int), reqVal env "TELEGRAM_BOT_TOKEN" ≠ "" →
        reqVal env "DATABASE_URL" ≠ "" →
        getIntEnv env "CHECK_INTERVAL_MINUTES" 15 = Except.ok ci →
        getIntEnv env "SUMMARY_MIN_LEN" 140 = Except.ok mn →
        getIntEnv env "SUMMARY_MAX_LEN" 280 = Except.error e →
        Config.load env = Except.error e) ∧
    (∀ ci mn mx : Int, reqVal env "TELEGRAM_BOT_TOKEN" ≠ "" →
        reqVal env "DATABASE_URL" ≠ "" →
        getIntEnv env "CHECK_INTERVAL_MINUTES" 15 = Except.ok ci →
        getIntEnv env "SUMMARY_MIN_LEN" 140 = Except.ok mn →
        getIntEnv env "SUMMARY_MAX_LEN" 280 = Except.ok mx →
        (ci ≤ 0 → Config.load env
            = Except.error ⟨"CHECK_INTERVAL_MINUTES must be > 0"⟩) ∧
        (0 < ci → mn ≤ 0 → Config.load env
            = Except.error ⟨"SUMMARY_MIN_LEN must be > 0"⟩) ∧
        (0 < ci → 0 < mn → mx ≤ 0 → Config.load env
            = Except.error ⟨"SUMMARY_MAX_LEN must be > 0"⟩) ∧
        (0 < ci → 0 < mn → 0 < mx → mn > mx → Config.load env
            = Except.error ⟨"SUMMARY_MIN_LEN must be <= SUMMARY_MAX_LEN"⟩)) := by
  refine ⟨fun h => ⟨missingOf_ne_nil env h, load_missing env (missingOf_ne_nil env h)⟩,
    fun e hbt hdb h => load_int_error1 env e hbt hdb h,
    fun e ci hbt hdb h1 h => load_int_error2 env e ci hbt hdb h1 h,
    fun e ci mn hbt hdb h1 h2 h => load_int_error3 env e ci mn hbt hdb h1 h2 h,
    fun ci mn mx hbt hdb h1 h2 h3 => load_range_errors env ci mn mx hbt hdb h1 h2 h3⟩

/-- C4, witness: in an environment missing DATABASE_URL while also carrying an
unparseable CHECK_INTERVAL_MINUTES, the missing-variable error wins. -/
theorem C4_error_precedence_witness :
    (reqVal envMissingDb "TELEGRAM_BOT_TOKEN" = ""
        ∨ reqVal envMissingDb "DATABASE_URL" = "") ∧
    envMissingDb "CHECK_INTERVAL_MINUTES" = some "abc" ∧
    missingOf envMissingDb ≠ [] ∧
    Config.load envMissingDb = Except.error ⟨missingMsg (missingOf envMissingDb)⟩ :=
  ⟨Or.inr (by decide), rfl,
    ((C4_error_precedence envMissingDb).1 (Or.inr (by decide))).1,
    ((C4_error_precedence envMissingDb).1 (Or.inr (by decide))).2⟩

/-- C5, counterexample to the claim as stated: with
`CHECK_INTERVAL_MINUTES="a\b"` (a backslash between `a` and `b`) the raised
message renders the raw value through CPython `repr`, which escapes the
backslash, so the message does not contain the raw value itself. -/
theorem C5_escape_counterexample :
    reqVal envBackslash "TELEGRAM_BOT_TOKEN" ≠ "" ∧
    reqVal envBackslash "DATABASE_URL" ≠ "" ∧
    envBackslash "CHECK_INTERVAL_MINUTES" = some "a\\b" ∧
    pyParseInt (pyStrip "a\\b") = none ∧
    Config.load envBackslash
      = Except.error ⟨invalidMsg "CHECK_INTERVAL_MINUTES" "a\\b"⟩ ∧
    strContains (invalidMsg "CHECK_INTERVAL_MINUTES" "a\\b") "CHECK_INTERVAL_MINUTES"
      = true ∧
    strContains (invalidMsg "CHECK_INTERVAL_MINUTES" "a\\b") "a\\b" = false :=
  ⟨by decide, by decide, rfl, by decide, rfl, by decide, by decide⟩

/-- C5 (amended): an optional integer variable set to a string whose trimmed
form does not parse makes `Config.load` raise a `ConfigError` whose message
contains the variable's name and the CPython repr of the raw (trimmed)
invalid value — hence the raw value itself whenever its repr is just the raw
value between single quotes, i.e. no character needed escaping; for the later
variables this is the reported error once the earlier ones parse, per the
check order. -/
theorem C5_invalid_integer_message (env : Env) (s : String)
    (hbt : reqVal env "TELEGRAM_BOT_TOKEN" ≠ "")
    (hdb : reqVal env "DATABASE_URL" ≠ "")
    (hp : pyParseInt (pyStrip s) = none) :
    (env "CHECK_INTERVAL_MINUTES" = some s →
        ∃ e : ConfigError, Config.load env = Except.error e ∧
          strContains e.msg "CHECK_INTERVAL_MINUTES" = true ∧
          strContains e.msg (pyRepr (pyStrip s)) = true ∧
          (pyRepr (pyStrip s) = "\x27" ++ pyStrip s ++ "\x27" →
            strContains e.msg (pyStrip s) = true)) ∧
    (∀ ci : Int, getIntEnv env "CHECK_INTERVAL_MINUTES" 15 = Except.ok ci →
        env "SUMMARY_MIN_LEN" = some s →
        ∃ e : ConfigError, Config.load env = Except.error e ∧
          strContains e.msg "SUMMARY_MIN_LEN" = true ∧
          strContains e.msg (pyRepr (pyStrip s)) = true ∧
          (pyRepr (pyStrip s) = "\x27" ++ pyStrip s ++ "\x27" →
            strContains e.msg (pyStrip s) = true)) ∧
    (∀ ci mn : Int, getIntEnv env "CHECK_INTERVAL_MINUTES" 15 = Except.ok ci →
        getIntEnv env "SUMMARY_MIN_LEN" 140 = Except.ok mn →
        env "SUMMARY_MAX_LEN" = some s →
        ∃ e : ConfigError, Config.load env = Except.error e ∧
          strContains e.msg "SUMMARY_MAX_LEN" = true ∧
          strContains e.msg (pyRepr (pyStrip s)) = true ∧
          (pyRepr (pyStrip s) = "\x27" ++ pyStrip s ++ "\x27" →
            strContains e.msg (pyStrip s) = true)) := by
  refine ⟨fun henv => ?_, fun ci h1 henv => ?_, fun ci mn h1 h2 henv => ?_⟩
  · exact ⟨⟨invalidMsg "CHECK_INTERVAL_MINUTES" (pyStrip s)⟩,
      load_int_error1 env _ hbt hdb (getIntEnv_error env _ 15 s henv hp),
      invalidMsg_contains_name _ _, invalidMsg_contains_repr _ _,
      fun hrepr => invalidMsg_contains_plain_raw _ _ hrepr⟩
  · exact ⟨⟨invalidMsg "SUMMARY_MIN_LEN" (pyStrip s)⟩,
      load_int_error2 env _ ci hbt hdb h1 (getIntEnv_error env _ 140 s henv hp),
      invalidMsg_contains_name _ _, invalidMsg_contains_repr _ _,
      fun hrepr => invalidMsg_contains_plain_raw _ _ hrepr⟩
  · exact ⟨⟨invalidMsg "SUMMARY_MAX_LEN" (pyStrip s)⟩,
      load_int_error3 env _ ci mn hbt hdb h1 h2 (getIntEnv_error env _ 280 s henv hp),
      invalidMsg_contains_name _ _, invalidMsg_contains_repr _ _,
      fun hrepr => invalidMsg_contains_plain_raw _ _ hrepr⟩

/-- C5, witness: `CHECK_INTERVAL_MINUTES=" abc "` produces an error whose
message contains the variable name, the repr of `abc`, and — since the repr
of `abc` needs no escaping — `abc` itself. -/
theorem C5_invalid_integer_message_witness :
    reqVal envBadInterval "TELEGRAM_BOT_TOKEN" ≠ "" ∧
    reqVal envBadInterval "DATABASE_URL" ≠ "" ∧
    pyParseInt (pyStrip " abc ") = none ∧
    envBadInterval "CHECK_INTERVAL_MINUTES" = some " abc " ∧
    pyRepr (pyStrip " abc ") = "\x27" ++ pyStrip " abc " ++ "\x27" ∧
    (∃ e : ConfigError, Config.load envBadInterval = Except.error e ∧
      strContains e.msg "CHECK_INTERVAL_MINUTES" = true ∧
      strContains e.msg (pyRepr (pyStrip " abc ")) = true ∧
      (pyRepr (pyStrip " abc ") = "\x27" ++ pyStrip " abc " ++ "\x27" →
        strContains e.msg (pyStrip " abc ") = true)) :=
  ⟨by decide, by decide, by decide, rfl, by decide,
    (C5_invalid_integer_message envBadInterval " abc " (by decide) (by decide)
      (by decide)).1 rfl⟩

/-- C6: with required variables present and the optional integers parsing to
`ci`, `mn`, `mx`, `Config.load` rejects a non-positive value of any of the
three, and rejects `mn > mx` once all are positive, each failure with its own
distinct message. -/
theorem C6_range_and_cross_errors (env : Env) (ci mn mx : Int)
    (hbt : reqVal env "TELEGRAM_BOT_TOKEN" ≠ "")
    (hdb : reqVal env "DATABASE_URL" ≠ "")
    (hci : parsesTo env "CHECK_INTERVAL_MINUTES" 15 ci)
    (hmn : parsesTo env "SUMMARY_MIN_LEN" 140 mn)
    (hmx : parsesTo env "SUMMARY_MAX_LEN" 280 mx) :
    (ci ≤ 0 →
        Config.load env = Except.error ⟨"CHECK_INTERVAL_MINUTES must be > 0"⟩) ∧
    (0 < ci → mn ≤ 0 →
        Config.load env = Except.error ⟨"SUMMARY_MIN_LEN must be > 0"⟩) ∧
    (0 < ci → 0 < mn → mx ≤ 0 →
        Config.load env = Except.error ⟨"SUMMARY_MAX_LEN must be > 0"⟩) ∧
    (0 < ci → 0 < mn → 0 < mx → mn > mx →
        Config.load env
          = Except.error ⟨"SUMMARY_MIN_LEN must be <= SUMMARY_MAX_LEN"⟩) ∧
    ("CHECK_INTERVAL_MINUTES must be > 0" : String) ≠ "SUMMARY_MIN_LEN must be > 0" ∧
    ("CHECK_INTERVAL_MINUTES must be > 0" : String) ≠ "SUMMARY_MAX_LEN must be > 0" ∧
    ("CHECK_INTERVAL_MINUTES must be > 0" : String)
      ≠ "SUMMARY_MIN_LEN must be <= SUMMARY_MAX_LEN" ∧
    ("SUMMARY_MIN_LEN must be > 0" : String) ≠ "SUMMARY_MAX_LEN must be > 0" ∧
    ("SUMMARY_MIN_LEN must be > 0" : String)
      ≠ "SUMMARY_MIN_LEN must be <= SUMMARY_MAX_LEN" ∧
    ("SUMMARY_MAX_LEN must be > 0" : String)
      ≠ "SUMMARY_MIN_LEN must be <= SUMMARY_MAX_LEN" := by
  have h1 := getIntEnv_ok env "CHECK_INTERVAL_MINUTES" 15 ci (by decide) hci
  have h2 := getIntEnv_ok env "SUMMARY_MIN_LEN" 140 mn (by decide) hmn
  have h3 := getIntEnv_ok env "SUMMARY_MAX_LEN" 280 mx (by decide) hmx
  obtain ⟨ha, hb, hc, hd⟩ := load_range_errors env ci mn mx hbt hdb h1 h2 h3
  exact ⟨ha, hb, hc, hd, by decide, by decide, by decide, by decide, by decide,
    by decide⟩

/-- C6, witness: `SUMMARY_MIN_LEN=0` yields the non-positive error (check
interval defaults to 15). -/
theorem C6_range_and_cross_errors_witness :
    reqVal envZeroMin "TELEGRAM_BOT_TOKEN" ≠ "" ∧
    reqVal envZeroMin "DATABASE_URL" ≠ "" ∧
    parsesTo envZeroMin "CHECK_INTERVAL_MINUTES" 15 15 ∧
    parsesTo envZeroMin "SUMMARY_MIN_LEN" 140 0 ∧
    parsesTo envZeroMin "SUMMARY_MAX_LEN" 280 280 ∧
    (0 : Int) < 15 ∧ (0 : Int) ≤ 0 ∧
    Config.load envZeroMin = Except.error ⟨"SUMMARY_MIN_LEN must be > 0"⟩ :=
  ⟨by decide, by decide, rfl, rfl, rfl, by decide, by decide,
    ((C6_range_and_cross_errors envZeroMin 15 0 280 (by decide) (by decide)
      rfl rfl rfl).2.1 (by decide) (by decide))⟩

/-- C7: the override file never changes a variable already set in the process
environment, and in particular a process `LOG_LEVEL=DEBUG` survives whatever
the file assigns, so a successful load carries `log_level = "DEBUG"`. -/
theorem C7_dotenv_no_override (procEnv fileEnv : Env) :
    (∀ name v, procEnv name = some v → load_dotenv procEnv fileEnv name = some v) ∧
    (∀ c : Config, procEnv "LOG_LEVEL" = some "DEBUG" →
        Config.load (load_dotenv procEnv fileEnv) = Except.ok c →
        c.LOG_LEVEL = "DEBUG") := by
  constructor
  · intro name v h
    unfold load_dotenv
    rw [h]
  · intro c hl hload
    have hlog := (load_ok_inv _ c hload).2.2.2.2.2.2
    have hread : load_dotenv procEnv fileEnv "LOG_LEVEL" = some "DEBUG" := by
      unfold load_dotenv
      rw [hl]
    rw [hlog]
    simp only [logLevelOf, hread]
    decide

/-- C7, witness: process `LOG_LEVEL=DEBUG` with file `LOG_LEVEL=TRACE` loads
with `log_level = "DEBUG"`. -/
theorem C7_dotenv_no_override_witness :
    procEnvW "LOG_LEVEL" = some "DEBUG" ∧ fileEnvW "LOG_LEVEL" = some "TRACE" ∧
    Config.load (load_dotenv procEnvW fileEnvW)
      = Except.ok ⟨"t", "d", 15, 140, 280, "DEBUG"⟩ ∧
    (⟨"t", "d", 15, 140, 280, "DEBUG"⟩ : Config).LOG_LEVEL = "DEBUG" :=
  ⟨rfl, rfl, rfl, (C7_dotenv_no_override procEnvW fileEnvW).2 _ rfl rfl⟩

/-- An integer read after updating a variable depends only on the stripped
value written, whichever variable was updated. -/
theorem getIntEnv_setVar_congr (env : Env) (n t s m : String) (d : Int)
    (hst : pyStrip t = pyStrip s) :
    getIntEnv (setVar env n t) m d = getIntEnv (setVar env n s) m d := by
  by_cases hm : m = n
  · subst hm
    exact getIntEnv_setVar_strip env m t s d hst
  · rw [getIntEnv_setVar_ne env n t m d hm, getIntEnv_setVar_ne env n s m d hm]

/-- C8: setting an integer variable to a whitespace-padded copy of a value
string loads identically to setting it to the value itself. -/
theorem C8_whitespace_padding_invariance (env : Env) (name s t : String)
    (u w : List Char)
    (hname : name = "CHECK_INTERVAL_MINUTES" ∨ name = "SUMMARY_MIN_LEN"
      ∨ name = "SUMMARY_MAX_LEN")
    (hu : ∀ c ∈ u, isSpaceChar c = true) (hw : ∀ c ∈ w, isSpaceChar c = true)
    (ht : t.data = u ++ (s.data ++ w)) :
    Config.load (setVar env name t) = Config.load (setVar env name s) := by
  have hst : pyStrip t = pyStrip s := pyStrip_pad t s u w hu hw ht
  rcases hname with h | h | h <;> subst h <;>
    exact load_congr _ _
      (by rw [reqVal_setVar_ne env _ t "TELEGRAM_BOT_TOKEN" (by decide),
              reqVal_setVar_ne env _ s "TELEGRAM_BOT_TOKEN" (by decide)])
      (by rw [reqVal_setVar_ne env _ t "DATABASE_URL" (by decide),
              reqVal_setVar_ne env _ s "DATABASE_URL" (by decide)])
      (getIntEnv_setVar_congr env _ t s "CHECK_INTERVAL_MINUTES" 15 hst)
      (getIntEnv_setVar_congr env _ t s "SUMMARY_MIN_LEN" 140 hst)
      (getIntEnv_setVar_congr env _ t s "SUMMARY_MAX_LEN" 280 hst)
      (by rw [logLevelOf_setVar_ne env _ t (by decide),
              logLevelOf_setVar_ne env _ s (by decide)])

/-- C8, witness: `CHECK_INTERVAL_MINUTES=" 15 "` loads exactly like
`CHECK_INTERVAL_MINUTES="15"`. -/
theorem C8_whitespace_padding_invariance_witness :
    (("CHECK_INTERVAL_MINUTES" : String) = "CHECK_INTERVAL_MINUTES"
      ∨ ("CHECK_INTERVAL_MINUTES" : String) = "SUMMARY_MIN_LEN"
      ∨ ("CHECK_INTERVAL_MINUTES" : String) = "SUMMARY_MAX_LEN") ∧
    (∀ c ∈ [' '], isSpaceChar c = true) ∧
    (" 15 " : String).data = [' '] ++ (("15" : String).data ++ [' ']) ∧
    Config.load (setVar envAllSet "CHECK_INTERVAL_MINUTES" " 15 ")
      = Config.load (setVar envAllSet "CHECK_INTERVAL_MINUTES" "15") :=
  ⟨Or.inl rfl, by decide, rfl,
    C8_whitespace_padding_invariance envAllSet "CHECK_INTERVAL_MINUTES" "15" " 15 "
      [' '] [' '] (Or.inl rfl) (by decide) (by decide) rfl⟩

/-- C9: an optional integer variable set to an empty or whitespace-only
string is an invalid-integer error with raw value `''`, not a fallback to the
default; later variables report once the earlier ones parse. -/
theorem C9_blank_integer_error (env : Env) (s : String)
    (hbt : reqVal env "TELEGRAM_BOT_TOKEN" ≠ "")
    (hdb : reqVal env "DATABASE_URL" ≠ "")
    (hs : pyStrip s = "") :
    (env "CHECK_INTERVAL_MINUTES" = some s →
        Config.load env = Except.error ⟨invalidMsg "CHECK_INTERVAL_MINUTES" ""⟩) ∧
    (∀ ci : Int, getIntEnv env "CHECK_INTERVAL_MINUTES" 15 = Except.ok ci →
        env "SUMMARY_MIN_LEN" = some s →
        Config.load env = Except.error ⟨invalidMsg "SUMMARY_MIN_LEN" ""⟩) ∧
    (∀ ci mn : Int, getIntEnv env "CHECK_INTERVAL_MINUTES" 15 = Except.ok ci →
        getIntEnv env "SUMMARY_MIN_LEN" 140 = Except.ok mn →
        env "SUMMARY_MAX_LEN" = some s →
        Config.load env = Except.error ⟨invalidMsg "SUMMARY_MAX_LEN" ""⟩) := by
  have hp : pyParseInt (pyStrip s) = none := by
    rw [hs]
    rfl
  refine ⟨fun henv => ?_, fun ci h1 henv => ?_, fun ci mn h1 h2 henv => ?_⟩
  · have h := load_int_error1 env _ hbt hdb (getIntEnv_error env _ 15 s henv hp)
    rwa [hs] at h
  · have h := load_int_error2 env _ ci hbt hdb h1 (getIntEnv_error env _ 140 s henv hp)
    rwa [hs] at h
  · have h := load_int_error3 env _ ci mn hbt hdb h1 h2
      (getIntEnv_error env _ 280 s henv hp)
    rwa [hs] at h

/-- C9, witness: `CHECK_INTERVAL_MINUTES="   "` is reported as an invalid
integer with raw value `''`. -/
theorem C9_blank_integer_error_witness :
    reqVal envBlankInterval "TELEGRAM_BOT_TOKEN" ≠ "" ∧
    reqVal envBlankInterval "DATABASE_URL" ≠ "" ∧
    pyStrip "   " = "" ∧
    envBlankInterval "CHECK_INTERVAL_MINUTES" = some "   " ∧
    Config.load envBlankInterval
      = Except.error ⟨invalidMsg "CHECK_INTERVAL_MINUTES" ""⟩ :=
  ⟨by decide, by decide, rfl, rfl,
    (C9_blank_integer_error envBlankInterval "   " (by decide) (by decide) rfl).1 rfl⟩

/-- C10: a `LOG_LEVEL` that is blank after trimming yields `"INFO"`, and the
`LOG_LEVEL` field of every successfully loaded configuration is non-empty. -/
theorem C10_log_level_blank_default (env : Env) (c : Config)
    (h : Config.load env = Except.ok c) :
    (∀ s, env "LOG_LEVEL" = some s → pyStrip s = "" → c.LOG_LEVEL = "INFO") ∧
    c.LOG_LEVEL ≠ "" := by
  have hl := (load_ok_inv env c h).2.2.2.2.2.2
  constructor
  · intro s hs hblank
    rw [hl]
    simp [logLevelOf, hs, hblank]
  · rw [hl]
    simp only [logLevelOf]
    by_cases hb : pyStrip ((env "LOG_LEVEL").getD "INFO") = ""
    · simp [hb]
    · simp [hb]

/-- C10, witness: with `LOG_LEVEL=" "` the load succeeds with
`LOG_LEVEL = "INFO"`, which is non-empty. -/
theorem C10_log_level_blank_default_witness :
    Config.load envBlankLog = Except.ok (⟨"t", "d", 15, 140, 280, "INFO"⟩ : Config) ∧
    envBlankLog "LOG_LEVEL" = some " " ∧ pyStrip " " = "" ∧
    (⟨"t", "d", 15, 140, 280, "INFO"⟩ : Config).LOG_LEVEL = "INFO" ∧
    (⟨"t", "d", 15, 140, 280, "INFO"⟩ : Config).LOG_LEVEL ≠ "" :=
  ⟨rfl, rfl, rfl,
    (C10_log_level_blank_default envBlankLog _ rfl).1 " " rfl rfl,
    (C10_log_level_blank_default envBlankLog _ rfl).2⟩

end NewsDetector
